import Mathlib

/-!
Verification development for the AtharAI-Core repository.

The repository is a React chat client backed by a Cloudflare Pages proxy to
the Hugging Face inference API.  This file gives a shallow embedding of the
parts of the code the claims are about:

* the proxy stream translator (streamProcessor) and its helpers
  (buildApiHistory, arrayBufferToBase64, checkModelStatus) from
  functions/api/[[path]].ts and its expanded variant;
* the client streaming service generateTextStream from
  services/huggingFaceService.ts;
* the chat orchestrator (sendMessage / performSendWithRetries /
  cleanupAfterRequest and the placeholder rotation callback) from the
  useChat hook.

Strings are modelled as List Char.  Asynchronous runs are modelled by
supplying, per network attempt, its outcome (resolved value or thrown
error); the orchestrator is then a pure function from the outcome sequence
to a final state together with a trace of its observable effects
(setConversations commits, setStreamingMessage updates, sleeps, timer
arming).  JSON.parse of an upstream delta line is kept abstract as a
function of type Str → Option Str (none models a thrown parse error).
-/

abbrev Str := List Char

/-- The newline character, the separator used by buffer.split in the source. -/
def newlineChar : Char := Char.ofNat 10

/-- Whether a character belongs to the JS whitespace class used by trim and
the regex class backslash-s (space, tab, newline, carriage return, form feed,
vertical tab, no-break space, BOM). -/
def isSpaceChar (c : Char) : Bool :=
  c = Char.ofNat 32 || c = Char.ofNat 9 || c = Char.ofNat 10 || c = Char.ofNat 13 ||
  c = Char.ofNat 12 || c = Char.ofNat 11 || c = Char.ofNat 160 || c = Char.ofNat 65279

/-- ASCII decimal digit test, the regex class backslash-d. -/
def isDigitChar (c : Char) : Bool := 48 ≤ c.toNat && c.toNat ≤ 57

/-- JS String.prototype.trim: strip leading and trailing whitespace. -/
def trimStr (s : Str) : Str :=
  ((s.dropWhile isSpaceChar).reverse.dropWhile isSpaceChar).reverse

/-- JS String.prototype.startsWith: does s start with p. -/
def leadsWith : Str → Str → Bool
  | _, [] => true
  | [], _ :: _ => false
  | c :: cs, d :: ds => c = d && leadsWith cs ds

/-- JS String.prototype.includes: does s contain sub as a contiguous part. -/
def containsSub : Str → Str → Bool
  | [], sub => leadsWith [] sub
  | c :: cs, sub => leadsWith (c :: cs) sub || containsSub cs sub

/-- parseInt base 10 on a string of decimal digits. -/
def digitsToNat (ds : Str) : Nat :=
  ds.foldl (fun n c => n * 10 + (c.toNat - 48)) 0

/-- The literal tail of the wait-time regex. -/
def detikWord : Str := ("detik").toList

/-- One anchored attempt of the regex digits-then-spaces-then-detik at the
start of s: the greedy digit run, then any whitespace, then the literal
"detik".  Returns the captured digit run. -/
def matchDigitsDetik (s : Str) : Option Str :=
  let ds := s.takeWhile isDigitChar
  if ds = [] then none
  else if leadsWith ((s.drop ds.length).dropWhile isSpaceChar) detikWord then some ds
  else none

/-- Leftmost match of the wait-time regex over the whole string, as the JS
regex engine scans start positions left to right. -/
def findWaitDigits : Str → Option Str
  | [] => none
  | c :: cs =>
    match matchDigitsDetik (c :: cs) with
    | some ds => some ds
    | none => findWaitDigits cs

/-- errorMessage.match of the regex digits-spaces-detik followed by parseInt
of the first capture group. -/
def parseWaitTime (msg : Str) : Option Nat :=
  (findWaitDigits msg).map digitsToNat

/- ## Proxy stream translator (streamProcessor) -/

/-- One step of buffer.split on newline followed by lines.pop: the complete
lines before each newline, and the residual text after the last newline. -/
def splitBuffer : Str → List Str × Str
  | [] => ([], [])
  | c :: cs =>
    let p := splitBuffer cs
    if c = newlineChar then ([] :: p.1, p.2)
    else
      match p with
      | ([], r) => ([], c :: r)
      | (l :: ls, r) => ((c :: l) :: ls, r)

/-- State of the incremental line processor: the pending residual text and
the frames written so far, in order. -/
structure ProcState where
  buffer : Str
  out : List Str
deriving DecidableEq

/-- One iteration of the read loop: append the decoded chunk to the buffer,
split on newlines keeping the residual, and process every complete line with
the per-line handler f (none means the line is skipped). -/
def procChunk (f : Str → Option Str) (st : ProcState) (chunk : Str) : ProcState :=
  let p := splitBuffer (st.buffer ++ chunk)
  ⟨p.2, st.out ++ p.1.filterMap f⟩

/-- The whole read loop over a sequence of transport chunks, from the empty
buffer. -/
def procChunks (f : Str → Option Str) (chunks : List Str) : ProcState :=
  chunks.foldl (procChunk f) ⟨[], []⟩

/-- The data: line marker checked by line.startsWith. -/
def dataTag : Str := ("data:").toList

/-- The upstream end-of-stream sentinel. -/
def doneSentinel : Str := ("[DONE]").toList

/-- The delta the proxy extracts from one buffered line, if any: the line
must start with data:, its payload is trimmed, the [DONE] sentinel is
skipped, a failed JSON.parse (parse = none) is skipped, and an empty or
missing choices[0].delta.content (parse = some []) is skipped.  parse
abstracts JSON.parse plus the optional-chained field access. -/
def deltaOfLine (parse : Str → Option Str) (line : Str) : Option Str :=
  if leadsWith line dataTag then
    let js := trimStr (line.drop 5)
    if js = doneSentinel then none
    else
      match parse js with
      | some t => if t = [] then none else some t
      | none => none
  else none

/-- Lowercase hexadecimal digit, as produced by JSON.stringify escapes. -/
def hexDigit (n : Nat) : Char :=
  if n < 10 then Char.ofNat (48 + n) else Char.ofNat (87 + n)

/-- JSON.stringify escaping of one character of a string value. -/
def jsonEscapeChar (c : Char) : Str :=
  if c = Char.ofNat 34 then [Char.ofNat 92, Char.ofNat 34]
  else if c = Char.ofNat 92 then [Char.ofNat 92, Char.ofNat 92]
  else if c = Char.ofNat 8 then [Char.ofNat 92, Char.ofNat 98]
  else if c = Char.ofNat 9 then [Char.ofNat 92, Char.ofNat 116]
  else if c = Char.ofNat 10 then [Char.ofNat 92, Char.ofNat 110]
  else if c = Char.ofNat 12 then [Char.ofNat 92, Char.ofNat 102]
  else if c = Char.ofNat 13 then [Char.ofNat 92, Char.ofNat 114]
  else if c.toNat < 32 then
    [Char.ofNat 92, Char.ofNat 117, Char.ofNat 48, Char.ofNat 48,
     hexDigit (c.toNat / 16), hexDigit (c.toNat % 16)]
  else [c]

/-- JSON.stringify of a string value: quoted and escaped. -/
def jsonQuote (t : Str) : Str :=
  Char.ofNat 34 :: (t.foldr (fun c acc => jsonEscapeChar c ++ acc) [Char.ofNat 34])

/-- JSON.stringify of the object with single field text (braces written via
their code points). -/
def stringifyTextObj (t : Str) : Str :=
  Char.ofNat 123 :: (("\"text\":").toList ++ jsonQuote t) ++ [Char.ofNat 125]

/-- The SSE frame the proxy writes to the client for one delta. -/
def mkClientFrame (t : Str) : Str :=
  ("data: ").toList ++ stringifyTextObj t ++ [newlineChar, newlineChar]

/-- The per-line behavior of the proxy stream processor: the client frame for
the extracted delta, or none when the line is skipped. -/
def proxyLineFrame (parse : Str → Option Str) (line : Str) : Option Str :=
  (deltaOfLine parse line).map mkClientFrame

/-- The proxy streamProcessor run over a chunk sequence: frames written, in
order, plus the residual buffer. -/
def streamProcessorRun (parse : Str → Option Str) (chunks : List Str) : ProcState :=
  procChunks (proxyLineFrame parse) chunks

/- ## Proxy request shaping (buildApiHistory and the stream route) -/

inductive Role
  | user
  | model
deriving DecidableEq

inductive ApiRole
  | system
  | assistant
  | user
deriving DecidableEq

/-- A conversation turn as received by the proxy. -/
structure ProxyMessage where
  role : Role
  content : Str
deriving DecidableEq

/-- A message in the upstream chat-completion schema. -/
structure ApiMessage where
  role : ApiRole
  content : Str
deriving DecidableEq

/-- buildApiHistory: drop the initial message when its role is model, then
rename model to assistant keeping user. -/
def buildApiHistory (history : List ProxyMessage) : List ApiMessage :=
  let cleanHistory :=
    match history with
    | m :: rest => if m.role = Role.model then rest else m :: rest
    | [] => []
  cleanHistory.map fun m =>
    ⟨if m.role = Role.model then ApiRole.assistant else ApiRole.user, m.content⟩

inductive ChatMode
  | general
  | coding
  | vision
  | media
  | todo
deriving DecidableEq

def generalSystemPrompt : Str :=
  ("You are AtharAI, a helpful and friendly AI assistant based on Llama 3. Be insightful, comprehensive, and thorough in your responses.").toList

def codingSystemPrompt : Str :=
  ("You are an elite software architect and programmer named AtharAI. Your code is clean, efficient, and follows best practices. Provide detailed explanations for your code. Use markdown for all code blocks, specifying the language.").toList

/-- The system prompt the stream route selects by mode. -/
def systemPromptFor (mode : ChatMode) : Str :=
  if mode = ChatMode.coding then codingSystemPrompt else generalSystemPrompt

/-- The message list the stream route forwards upstream. -/
def streamMessages (mode : ChatMode) (history : List ProxyMessage) (prompt : Str) :
    List ApiMessage :=
  ⟨ApiRole.system, systemPromptFor mode⟩ ::
    (buildApiHistory history ++ [⟨ApiRole.user, prompt⟩])

/-- Written from the claim text: rename model to assistant and keep user, on
one turn. -/
def specRenameTurn (m : ProxyMessage) : ApiMessage :=
  ⟨if m.role = Role.model then ApiRole.assistant else ApiRole.user, m.content⟩

/-- Written from the claim text: the forwarded list as the claim states it,
with ALL prior history turns kept. -/
def claimedStreamMessages (mode : ChatMode) (history : List ProxyMessage) (prompt : Str) :
    List ApiMessage :=
  ⟨ApiRole.system, systemPromptFor mode⟩ ::
    (history.map specRenameTurn ++ [⟨ApiRole.user, prompt⟩])

/-- Spec-side helper for the amended claim: drop an initial model-role turn. -/
def specDropLeadingModel : List ProxyMessage → List ProxyMessage
  | m :: rest => if m.role = Role.model then rest else m :: rest
  | [] => []

/- ## Proxy image route (arrayBufferToBase64) -/

def base64Alphabet : Str :=
  ("ABCDEFGHIJKLMNOPQRSTUVWXYZabcdefghijklmnopqrstuvwxyz0123456789+/").toList

def base64Digit (n : Nat) : Char := base64Alphabet.getD n (Char.ofNat 65)

/-- Reference base64 of a byte sequence (RFC 4648 with padding), used as the
model of the btoa platform builtin. -/
def base64Encode : List Nat → Str
  | b1 :: b2 :: b3 :: rest =>
    base64Digit (b1 / 4) :: base64Digit ((b1 % 4) * 16 + b2 / 16) ::
      base64Digit ((b2 % 16) * 4 + b3 / 64) :: base64Digit (b3 % 64) :: base64Encode rest
  | [b1, b2] =>
    [base64Digit (b1 / 4), base64Digit ((b1 % 4) * 16 + b2 / 16),
     base64Digit ((b2 % 16) * 4), Char.ofNat 61]
  | [b1] =>
    [base64Digit (b1 / 4), base64Digit ((b1 % 4) * 16), Char.ofNat 61, Char.ofNat 61]
  | [] => []

/-- The btoa platform builtin on a list of UTF-16 code units: throws
(returns none) when a unit exceeds 255, else base64 of the units. -/
def btoa (codeUnits : List Nat) : Option Str :=
  if codeUnits.all (fun u => u < 256) then some (base64Encode codeUnits) else none

/-- String.fromCharCode keeps the low 16 bits of its argument. -/
def fromCharCode (n : Nat) : Nat := n % 65536

/-- arrayBufferToBase64: build the binary string one char code at a time,
then btoa it. -/
def arrayBufferToBase64 (bytes : List Nat) : Option Str :=
  btoa (bytes.foldl (fun binary b => binary ++ [fromCharCode b]) [])

/-- The constant data-URL MIME header the image route always uses. -/
def jpegUrlHead : Str := ("data:image/jpeg;base64,").toList

/-- The imageUrl field of the image route response for an upstream byte
payload. -/
def imageEndpointBody (bytes : List Nat) : Option Str :=
  (arrayBufferToBase64 bytes).map (fun b64 => jpegUrlHead ++ b64)

/- ## Proxy status probe (checkModelStatus) -/

inductive ModelStatus
  | online
  | loading
  | offline
deriving DecidableEq

/-- The parsed error body of a failed probe; each field records whether the
corresponding JSON field is present and truthy (the source tests
errorBody.error and errorBody.estimated_time by JS truthiness). -/
structure ErrBody where
  errorTruthy : Bool
  estimatedTimeTruthy : Bool
deriving DecidableEq

/-- The observable outcome of the fetch inside checkModelStatus: the fetch
itself may reject, or a response arrives with a status code and, when read,
a parsed JSON body (none when response.json() rejects). -/
inductive ProbeOutcome
  | fetchFailed
  | got (status : Nat) (body : Option ErrBody)
deriving DecidableEq

/-- Response.ok per the fetch specification: status in 200..299. -/
def responseOk (status : Nat) : Bool := 200 ≤ status && status ≤ 299

/-- checkModelStatus classification. -/
def checkModelStatus : ProbeOutcome → ModelStatus
  | .fetchFailed => .offline
  | .got status body =>
    if responseOk status || status == 422 then .online
    else
      match body with
      | none => .offline
      | some b => if b.errorTruthy && b.estimatedTimeTruthy then .loading else .offline

/- ## Client streaming service (generateTextStream) -/

def abortName : Str := ("AbortError").toList

/-- The client-side per-line delta extraction in generateTextStream: a data:
line with nonempty payload is parsed; a parse failure is logged and skipped;
a parsed object with falsy text is skipped. -/
def clientLine (parse : Str → Option Str) (line : Str) : Option Str :=
  if leadsWith line dataTag then
    let js := trimStr (line.drop 5)
    if js = [] then none
    else
      match parse js with
      | some t => if t = [] then none else some t
      | none => none
  else none

/-- The deltas the client read loop extracts from a chunk sequence. -/
def clientExtract (parse : Str → Option Str) (chunks : List Str) : List Str :=
  (procChunks (clientLine parse) chunks).out

/-- The callback invocations generateTextStream performs, in order. -/
inductive StreamEvent
  | chunkEv (t : Str)
  | errorEv (msg : Str)
  | completeEv
deriving DecidableEq

/-- The ways an execution of generateTextStream can unfold: the fetch
response is not ok (or has no body), the body is read to completion, or an
error with a given name is thrown after some chunks were consumed (the name
AbortError covers both user cancellation and the deadline abort). -/
inductive StreamRun
  | httpFail (status : Nat) (statusText : Str) (body : Str)
  | readOk (chunks : List Str)
  | readFail (pre : List Str) (name : Str) (msg : Str)

/-- The message of the error thrown for a non-ok response. -/
def apiErrorText (status : Nat) (statusText body : Str) : Str :=
  ("API Error: ").toList ++ (Nat.repr status).toList ++ [Char.ofNat 32] ++
    statusText ++ (" - ").toList ++ body

/-- The trace of callback invocations of generateTextStream on a run: chunk
callbacks from the read loop; the catch block calls onError unless the error
name is AbortError; the finally block always calls onComplete. -/
def generateTextStreamTrace (parse : Str → Option Str) : StreamRun → List StreamEvent
  | .httpFail status statusText body =>
    [.errorEv (apiErrorText status statusText body), .completeEv]
  | .readOk chunks =>
    (clientExtract parse chunks).map StreamEvent.chunkEv ++ [.completeEv]
  | .readFail pre name msg =>
    (clientExtract parse pre).map StreamEvent.chunkEv ++
      (if name = abortName then [] else [.errorEv msg]) ++ [.completeEv]

def isCompleteEv : StreamEvent → Bool
  | .completeEv => true
  | _ => false

def isErrorEv : StreamEvent → Bool
  | .errorEv _ => true
  | _ => false

/- ## Chat orchestrator (useChat: sendMessage / performSendWithRetries) -/

/-- A chat message as held in the conversation history.  Absent optional
fields are none; an absent isLoading is the falsy false. -/
structure ChatMessage where
  role : Role
  content : Str
  image : Option Str := none
  prompt : Option Str := none
  isLoading : Bool := false
deriving DecidableEq

def MAX_RETRIES : Nat := 2

/-- JS truthiness of an optional string (undefined and the empty string are
falsy). -/
def truthyStr : Option Str → Bool
  | none => false
  | some s => !s.isEmpty

/-- The rotating placeholder texts shown during image generation. -/
def placeholderTexts : List Str :=
  [("🚀 Model sedang pemanasan, ini mungkin butuh waktu sebentar...").toList,
   ("Menerjemahkan prompt Anda...").toList,
   ("Menyiapkan kanvas digital...").toList,
   ("Memanggil inspirasi...").toList,
   ("Melukis dengan piksel...").toList,
   ("Memberikan sentuhan akhir...").toList,
   ("Hampir selesai, menyempurnakan detail...").toList,
   ("Proses ini mungkin memakan waktu hingga satu menit.").toList]

/-- The substring that classifies an error as a transient model-loading
error. -/
def loadingMarker : Str := ("Model sedang dimuat").toList

def visionDefaultPrompt : Str := ("What do you see in this image?").toList

def visionMissingImageMsg : Str := ("Vision mode requires an image.").toList

/-- The terminal message shown for an AbortError (deadline or cancel). -/
def timeoutApology : Str :=
  ("Maaf, permintaan membutuhkan waktu terlalu lama untuk direspon. Ini kemungkinan karena layanan gratis sedang sibuk atau sedang memuat model besar untuk pertama kalinya. Silakan coba lagi sesaat lagi.").toList

def exhaustedPre : Str :=
  ("Model masih gagal dimuat setelah beberapa kali percobaan. Layanan mungkin sedang sibuk. Silakan coba lagi nanti. Pesan dari server: \"").toList

/-- The terminal message after retries are exhausted on a loading error. -/
def exhaustedMsg (serverMsg : Str) : Str := exhaustedPre ++ serverMsg ++ [Char.ofNat 34]

def genericPre : Str := ("Maaf, terjadi kesalahan: ").toList

/-- The terminal message for any other error. -/
def genericErrorMsg (m : Str) : Str := genericPre ++ m

/-- The transient informational message inserted before a retry. -/
def retryMsgContent (wait attempt : Nat) : Str :=
  ("Model sedang dimuat oleh penyedia layanan. Mencoba lagi secara otomatis dalam ").toList ++
    (Nat.repr wait).toList ++ (" detik... (Percobaan ").toList ++
    (Nat.repr attempt).toList ++ [Char.ofNat 47] ++ (Nat.repr MAX_RETRIES).toList ++
    [Char.ofNat 41]

/-- The per-mode deadline: VQA and image models get a longer budget. -/
def timeoutDuration (mode : ChatMode) : Nat :=
  if mode = ChatMode.media ∨ mode = ChatMode.vision then 180000 else 120000

/-- The wait before a retry: the parsed detik value when present, else 20. -/
def waitSecondsOf (msg : Str) : Nat := (parseWaitTime msg).getD 20

/-- The environmental event that ends one network attempt: the awaited call
resolves with a value, it rejects with an error, or the abort signal fires
during the attempt (from cancelRequest or the deadline timer).  For text
modes the success value is the concatenation of all streamed chunks, and an
aborted attempt carries the content streamed before the abort. -/
inductive AttemptOutcome
  | success (result : Str)
  | failure (name msg : Str)
  | aborted (streamed : Str)
deriving DecidableEq

/-- The standard message of the DOMException raised by an aborted fetch. -/
def abortErrorText : Str := ("The operation was aborted.").toList

/-- What the awaited call in performSendWithRetries does: resolve or throw. -/
inductive ResolvedOutcome
  | success (result : Str)
  | failure (name msg : Str)
deriving DecidableEq

/-- How an attempt outcome reaches performSendWithRetries, by mode: an abort
during a General/Coding stream is caught inside generateTextStream (whose
catch ignores errors named AbortError) which then resolves normally, so the
orchestrator observes a successful resolution carrying the partial streamed
content; in the media and vision modes generateImage/getVisionResponse do
not catch, so the AbortError propagates out of the awaited call. -/
def observedOutcome (mode : ChatMode) : AttemptOutcome → ResolvedOutcome
  | AttemptOutcome.success r => ResolvedOutcome.success r
  | AttemptOutcome.failure name msg => ResolvedOutcome.failure name msg
  | AttemptOutcome.aborted streamed =>
    if mode = ChatMode.general ∨ mode = ChatMode.coding then
      ResolvedOutcome.success streamed
    else ResolvedOutcome.failure abortName abortErrorText

/-- Observable effects of the orchestrator, in program order. -/
inductive OrchEvent
  | commit (h : List ChatMessage)
  | draft (m : Option ChatMessage)
  | sleep (secs : Nat)
  | armTimeout (ms : Nat)
  | armInterval
  | disarmInterval
deriving DecidableEq

/-- The orchestrator state: the active-mode history, the streaming draft,
the loading flag, and for each of the interval and timeout both whether a
callback is still scheduled (Live) and whether the ref still holds a handle
(Ref); abortRef models the AbortController ref being non-null. -/
structure OrchState where
  history : List ChatMessage
  streaming : Option ChatMessage
  isLoading : Bool
  intervalLive : Bool
  intervalRef : Bool
  timeoutLive : Bool
  timeoutRef : Bool
  abortRef : Bool
deriving DecidableEq

def initOrchState : OrchState :=
  { history := [], streaming := none, isLoading := false, intervalLive := false,
    intervalRef := false, timeoutLive := false, timeoutRef := false, abortRef := false }

/-- The catch block first clears the deadline timer (without nulling its
ref) and clears and nulls the placeholder interval. -/
def applyCatchTimers (s : OrchState) : OrchState :=
  { s with timeoutLive := false, intervalLive := false, intervalRef := false }

/-- The terminal error text chosen at the end of the catch block. -/
def terminalErrorContent (name msg : Str) : Str :=
  if name = abortName then timeoutApology
  else if containsSub msg loadingMarker = true then exhaustedMsg msg
  else genericErrorMsg msg

/-- The final committed message of a successful attempt, by mode. -/
def successMessageFor (mode : ChatMode) (prompt r : Str) : ChatMessage :=
  if mode = ChatMode.media then
    { role := Role.model, content := [], image := some r, prompt := some prompt }
  else { role := Role.model, content := r }

/-- The loading placeholder message appended on a first media attempt. -/
def mediaPlaceholderMsg (prompt : Str) : ChatMessage :=
  { role := Role.model, content := placeholderTexts.headD [],
    prompt := some prompt, isLoading := true }

/-- The effects performed before the awaited network call, by mode: the
placeholder commit and rotation-interval start on a first media attempt, or
the empty streaming draft for the text modes; nothing for vision. -/
def preAttempt (mode : ChatMode) (prompt : Str) (currentConversation : List ChatMessage)
    (retryCount : Nat) (s : OrchState) : OrchState × List OrchEvent :=
  if mode = ChatMode.media then
    if retryCount = 0 then
      ({ s with
          history := currentConversation ++ [mediaPlaceholderMsg prompt]
          intervalLive := true
          intervalRef := true },
       [OrchEvent.commit (currentConversation ++ [mediaPlaceholderMsg prompt]),
        OrchEvent.armInterval])
    else (s, [])
  else if mode = ChatMode.general ∨ mode = ChatMode.coding then
    ({ s with streaming := some { role := Role.model, content := [] } },
     [OrchEvent.draft (some { role := Role.model, content := [] })])
  else (s, [])

/-- performSendWithRetries.  Each call arms the abort controller and the
per-mode deadline timer, runs the mode branch of the try block against the
next supplied outcome, and on a thrown error either retries (loading error
below MAX_RETRIES) or commits exactly one terminal error message.  An empty
outcome list models an attempt whose network call is still pending. -/
def performSend (mode : ChatMode) (prompt : Str) (imageBase64 : Option Str)
    (currentConversation : List ChatMessage) (retryCount : Nat)
    (outcomes : List AttemptOutcome) (s : OrchState) : OrchState × List OrchEvent :=
  let s := { s with abortRef := true, timeoutLive := true, timeoutRef := true }
  let armEvs : List OrchEvent := [OrchEvent.armTimeout (timeoutDuration mode)]
  if mode = ChatMode.vision ∧ truthyStr imageBase64 = false then
    -- the throw precedes any await; its message is neither an AbortError nor
    -- a loading error, so the catch block commits the generic error at once
    let err : ChatMessage :=
      { role := Role.model, content := terminalErrorContent (("Error").toList) visionMissingImageMsg }
    ({ applyCatchTimers s with history := currentConversation ++ [err] },
      armEvs ++ [OrchEvent.commit (currentConversation ++ [err])])
  else if mode = ChatMode.todo then
    -- no branch of the if chain matches: the try block is a no-op
    (s, armEvs)
  else
    match outcomes with
    | [] => (s, armEvs)
    | o :: rest =>
      let pre := preAttempt mode prompt currentConversation retryCount s
      let s := pre.1
      match observedOutcome mode o with
      | ResolvedOutcome.success r =>
        let clearEvs : List OrchEvent :=
          if mode = ChatMode.media ∧ s.intervalRef = true then [OrchEvent.disarmInterval]
          else []
        let s :=
          if mode = ChatMode.media ∧ s.intervalRef = true then { s with intervalLive := false }
          else s
        let s :=
          if mode = ChatMode.general ∨ mode = ChatMode.coding then
            { s with streaming := some { role := Role.model, content := r } }
          else s
        let final := successMessageFor mode prompt r
        ({ s with history := currentConversation ++ [final] },
          armEvs ++ pre.2 ++ clearEvs ++ [OrchEvent.commit (currentConversation ++ [final])])
      | ResolvedOutcome.failure name msg =>
        let s := applyCatchTimers s
        if containsSub msg loadingMarker = true ∧ retryCount < MAX_RETRIES then
          let w := waitSecondsOf msg
          let retryMsg : ChatMessage :=
            { role := Role.model, content := retryMsgContent w (retryCount + 1) }
          let midEvs : List OrchEvent :=
            [OrchEvent.commit (currentConversation ++ [retryMsg]), OrchEvent.draft none,
             OrchEvent.sleep w, OrchEvent.commit currentConversation]
          let s := { s with history := currentConversation, streaming := none }
          let next := performSend mode prompt imageBase64 currentConversation
            (retryCount + 1) rest s
          (next.1, armEvs ++ pre.2 ++ midEvs ++ next.2)
        else
          let err : ChatMessage :=
            { role := Role.model, content := terminalErrorContent name msg }
          ({ s with history := currentConversation ++ [err] },
            armEvs ++ pre.2 ++ [OrchEvent.commit (currentConversation ++ [err])])

/-- cleanupAfterRequest: clear and null both timers, reset the loading flag,
discard the streaming draft, null the abort controller. -/
def cleanupAfterRequest (s : OrchState) : OrchState :=
  { s with
    intervalLive := false
    intervalRef := false
    timeoutLive := false
    timeoutRef := false
    isLoading := false
    streaming := none
    abortRef := false }

/-- The prompt actually submitted: the trimmed input, or the default vision
question when the trimmed input is empty. -/
def promptOf (mode : ChatMode) (input : Str) : Str :=
  if trimStr input = [] then (if mode = ChatMode.vision then visionDefaultPrompt else [])
  else trimStr input

/-- The optimistic user message appended on submission. -/
def mkUserMessage (mode : ChatMode) (input : Str) (imageBase64 : Option Str) : ChatMessage :=
  { role := Role.user, content := promptOf mode input,
    image := if truthyStr imageBase64 = true then imageBase64 else none }

/-- sendMessage: the entry guards, the optimistic user-message commit, the
retrying send, and the finally-block cleanup. -/
def sendMessage (mode : ChatMode) (userInput : Str) (imageBase64 : Option Str)
    (outcomes : List AttemptOutcome) (s : OrchState) : OrchState × List OrchEvent :=
  if s.isLoading = true then (s, [])
  else if mode = ChatMode.vision ∧ truthyStr imageBase64 = false then (s, [])
  else if mode ≠ ChatMode.vision ∧ trimStr userInput = [] then (s, [])
  else
    let s := { s with isLoading := true }
    let prompt := promptOf mode userInput
    let updated := s.history ++ [mkUserMessage mode userInput imageBase64]
    let s := { s with history := updated }
    let run := performSend mode prompt imageBase64 updated 0 outcomes s
    (cleanupAfterRequest run.1, OrchEvent.commit updated :: run.2)

/-- The placeholder rotation interval callback: replace the content of the
trailing message only while it is a loading model placeholder. -/
def rotationTick (idx : Nat) (h : List ChatMessage) : List ChatMessage :=
  match h.getLast? with
  | none => h
  | some last =>
    if last.role = Role.model ∧ last.isLoading = true then
      h.dropLast ++ [{ last with content := placeholderTexts.getD idx [] }]
    else h

/-- The terminal message a run of performSend commits, predicted from the
outcome sequence alone: the first outcome that is a success or a
non-retryable failure decides it; none when the supplied outcomes are
exhausted before a terminal outcome occurs. -/
def predictTerminal (mode : ChatMode) (prompt : Str) (retryCount : Nat) :
    List AttemptOutcome → Option ChatMessage
  | [] => none
  | o :: rest =>
    match observedOutcome mode o with
    | ResolvedOutcome.success r => some (successMessageFor mode prompt r)
    | ResolvedOutcome.failure name msg =>
      if containsSub msg loadingMarker = true ∧ retryCount < MAX_RETRIES then
        predictTerminal mode prompt (retryCount + 1) rest
      else some { role := Role.model, content := terminalErrorContent name msg }

def isUserMessage (m : ChatMessage) : Bool := decide (m.role = Role.user)

/-- Number of user-role messages in a history. -/
def countUserMessages (h : List ChatMessage) : Nat := h.countP isUserMessage

/-- How the line decomposition of a concatenation is assembled from the
decompositions of the two parts: the residual of the first part fuses with
the first segment of the second. -/
def glueSplit (p q : List Str × Str) : List Str × Str :=
  match q.1 with
  | [] => (p.1, p.2 ++ q.2)
  | l :: ls => (p.1 ++ (p.2 ++ l) :: ls, q.2)

/-- A concrete transient loading error message, as produced by the proxy for
estimated_time 5. -/
def cexLoadMsg : Str :=
  ("Model sedang dimuat, silakan coba lagi dalam 5 detik.").toList

/-- The standard message of a DOMException AbortError. -/
def cexAbortMsg : Str := ("The operation was aborted.").toList

/- ## Helper lemmas -/

theorem countP_isCompleteEv_map_chunk (l : List Str) :
    (l.map StreamEvent.chunkEv).countP isCompleteEv = 0 := by
  induction l with
  | nil => rfl
  | cons a t ih => simp [List.map_cons, List.countP_cons, isCompleteEv, ih]

theorem countP_isErrorEv_map_chunk (l : List Str) :
    (l.map StreamEvent.chunkEv).countP isErrorEv = 0 := by
  induction l with
  | nil => rfl
  | cons a t ih => simp [List.map_cons, List.countP_cons, isErrorEv, ih]

theorem foldl_push_eq_map (bytes : List Nat) :
    ∀ init : List Nat,
      bytes.foldl (fun binary b => binary ++ [fromCharCode b]) init =
        init ++ bytes.map fromCharCode := by
  induction bytes with
  | nil => intro init; simp
  | cons b t ih => intro init; simp [List.foldl_cons, ih]

theorem map_fromCharCode_of_bytes (bytes : List Nat) (h : ∀ b ∈ bytes, b < 256) :
    bytes.map fromCharCode = bytes := by
  induction bytes with
  | nil => rfl
  | cons b t ih =>
    have hb : b < 256 := h b (List.mem_cons_self b t)
    have ht : ∀ x ∈ t, x < 256 := fun x hx => h x (List.mem_cons_of_mem b hx)
    have hb2 : b < 65536 := lt_trans hb (by norm_num)
    simp [List.map_cons, ih ht, fromCharCode, Nat.mod_eq_of_lt hb2]

/- ## C6 -/

/-- C6: checkModelStatus classifies a 2xx or 422 response as online, any
other response whose parsed error body has truthy error and estimated_time
fields as loading, and any other non-2xx response (body unparseable or
missing either field) or a rejected probe as offline. -/
theorem checkModelStatus_classification :
    (∀ status body, (responseOk status = true ∨ status = 422) →
        checkModelStatus (ProbeOutcome.got status body) = ModelStatus.online) ∧
    (∀ status b, responseOk status = false → status ≠ 422 →
        b.errorTruthy = true → b.estimatedTimeTruthy = true →
        checkModelStatus (ProbeOutcome.got status (some b)) = ModelStatus.loading) ∧
    (∀ status b, responseOk status = false → status ≠ 422 →
        (b.errorTruthy = false ∨ b.estimatedTimeTruthy = false) →
        checkModelStatus (ProbeOutcome.got status (some b)) = ModelStatus.offline) ∧
    (∀ status, responseOk status = false → status ≠ 422 →
        checkModelStatus (ProbeOutcome.got status none) = ModelStatus.offline) ∧
    checkModelStatus ProbeOutcome.fetchFailed = ModelStatus.offline := by
  refine ⟨?_, ?_, ?_, ?_, rfl⟩
  · rintro status body (hok | h422)
    · simp [checkModelStatus, hok]
    · subst h422; simp [checkModelStatus]
  · intro status b hok h422 he ht
    simp [checkModelStatus, hok, Nat.ne_of_lt, h422, he, ht]
  · intro status b hok h422 hf
    rcases hf with hf | hf <;> simp [checkModelStatus, hok, h422, hf]
  · intro status hok h422
    simp [checkModelStatus, hok, h422]

/-- Witness for C6 at concrete probe outcomes. -/
theorem checkModelStatus_classification_witness :
    checkModelStatus (ProbeOutcome.got 422 none) = ModelStatus.online ∧
    checkModelStatus (ProbeOutcome.got 503 (some ⟨true, true⟩)) = ModelStatus.loading ∧
    checkModelStatus (ProbeOutcome.got 503 (some ⟨true, false⟩)) = ModelStatus.offline ∧
    checkModelStatus (ProbeOutcome.got 404 none) = ModelStatus.offline :=
  ⟨checkModelStatus_classification.1 422 none (Or.inr rfl),
   checkModelStatus_classification.2.1 503 ⟨true, true⟩ (by decide) (by decide) rfl rfl,
   checkModelStatus_classification.2.2.1 503 ⟨true, false⟩ (by decide) (by decide)
     (Or.inr rfl),
   checkModelStatus_classification.2.2.2.1 404 (by decide) (by decide)⟩

/- ## C9 -/

/-- C9: on every execution path of generateTextStream the finally block
invokes onComplete exactly once, and the catch block never invokes onError
when the thrown error is an AbortError. -/
theorem generateTextStream_callback_discipline (parse : Str → Option Str)
    (run : StreamRun) :
    (generateTextStreamTrace parse run).countP isCompleteEv = 1 ∧
    (∀ pre msg, run = StreamRun.readFail pre abortName msg →
        (generateTextStreamTrace parse run).countP isErrorEv = 0) := by
  constructor
  · cases run with
    | httpFail status statusText body =>
      simp [generateTextStreamTrace, List.countP_cons, isCompleteEv]
    | readOk chunks =>
      simp [generateTextStreamTrace, List.countP_append, List.countP_cons,
        countP_isCompleteEv_map_chunk, isCompleteEv]
    | readFail pre name msg =>
      by_cases hn : name = abortName <;>
        simp [generateTextStreamTrace, hn, List.countP_append, List.countP_cons,
          countP_isCompleteEv_map_chunk, isCompleteEv]
  · rintro pre msg rfl
    simp [generateTextStreamTrace, List.countP_append, List.countP_cons,
      countP_isErrorEv_map_chunk, isErrorEv]

/-- Witness for C9: an aborted run invokes onError zero times. -/
theorem generateTextStream_callback_discipline_witness :
    (generateTextStreamTrace (fun _ => none)
        (StreamRun.readFail [] abortName cexAbortMsg)).countP isErrorEv = 0 :=
  (generateTextStream_callback_discipline (fun _ => none)
    (StreamRun.readFail [] abortName cexAbortMsg)).2 [] cexAbortMsg rfl

/- ## C10 -/

/-- C10: for every upstream byte payload, the image route response is the
data URL with the constant image/jpeg MIME label followed by the base64
encoding of exactly those bytes (the label does not depend on the bytes). -/
theorem image_base64_bytewise (bytes : List Nat) (h : ∀ b ∈ bytes, b < 256) :
    arrayBufferToBase64 bytes = some (base64Encode bytes) ∧
    imageEndpointBody bytes = some (jpegUrlHead ++ base64Encode bytes) := by
  have h1 : arrayBufferToBase64 bytes = some (base64Encode bytes) := by
    unfold arrayBufferToBase64
    rw [foldl_push_eq_map, List.nil_append, map_fromCharCode_of_bytes bytes h]
    unfold btoa
    have hall : bytes.all (fun u => decide (u < 256)) = true := by
      rw [List.all_eq_true]
      intro x hx
      simpa using h x hx
    simp only [hall]
    simp
  exact ⟨h1, by simp [imageEndpointBody, h1]⟩

/-- Witness for C10 on a PNG-header byte payload (still labelled jpeg). -/
theorem image_base64_bytewise_witness :
    (∀ b ∈ [137, 80, 78, 71, 13, 10, 26, 10], b < 256) ∧
    (arrayBufferToBase64 [137, 80, 78, 71, 13, 10, 26, 10] =
        some (base64Encode [137, 80, 78, 71, 13, 10, 26, 10]) ∧
      imageEndpointBody [137, 80, 78, 71, 13, 10, 26, 10] =
        some (jpegUrlHead ++ base64Encode [137, 80, 78, 71, 13, 10, 26, 10])) :=
  ⟨by decide, image_base64_bytewise [137, 80, 78, 71, 13, 10, 26, 10] (by decide)⟩

/- ## C8 -/

/-- C8 counterexample: with a history whose first turn has role model, the
forwarded message list is NOT the claimed one (the leading model turn is
dropped by buildApiHistory, not renamed). -/
theorem streamMessages_drops_leading_model_turn :
    streamMessages ChatMode.general [⟨Role.model, ("hai").toList⟩] (("halo").toList) ≠
      claimedStreamMessages ChatMode.general [⟨Role.model, ("hai").toList⟩]
        (("halo").toList) := by
  decide

/-- C8 (amended): the forwarded list is the mode-selected system message,
then the prior turns with an initial model-role turn dropped and model
renamed to assistant (user kept), then the new user turn. -/
theorem streamMessages_shape (mode : ChatMode) (history : List ProxyMessage)
    (prompt : Str) :
    streamMessages mode history prompt =
      ⟨ApiRole.system, systemPromptFor mode⟩ ::
        ((specDropLeadingModel history).map specRenameTurn ++
          [⟨ApiRole.user, prompt⟩]) := by
  cases history with
  | nil => rfl
  | cons m rest =>
    by_cases hm : m.role = Role.model <;>
      simp [streamMessages, buildApiHistory, specDropLeadingModel, specRenameTurn, hm]

/- ## C4 helper lemmas: splitBuffer under concatenation -/

theorem splitBuffer_append (a b : Str) :
    splitBuffer (a ++ b) = glueSplit (splitBuffer a) (splitBuffer b) := by
  induction a with
  | nil =>
    rcases hq : splitBuffer b with ⟨lb, rb⟩
    cases lb <;> simp [splitBuffer, glueSplit, hq]
  | cons c cs ih =>
    rcases hp : splitBuffer cs with ⟨la, ra⟩
    rcases hq : splitBuffer b with ⟨lb, rb⟩
    rw [hp, hq] at ih
    by_cases hc : c = newlineChar
    · cases lb <;>
        simp [splitBuffer, ih, glueSplit, hc, hp, hq, List.cons_append]
    · cases la <;> cases lb <;>
        simp [splitBuffer, ih, glueSplit, hc, hp, hq, List.cons_append]

theorem newline_not_mem_residual (s : Str) : newlineChar ∉ (splitBuffer s).2 := by
  induction s with
  | nil => simp [splitBuffer]
  | cons c cs ih =>
    rcases hp : splitBuffer cs with ⟨la, ra⟩
    rw [hp] at ih
    by_cases hc : c = newlineChar
    · simp [splitBuffer, hc, hp, ih]
    · cases la with
      | nil =>
        simp only [splitBuffer, hp, if_neg hc]
        simp only [List.mem_cons, not_or]
        exact ⟨fun h => hc h.symm, ih⟩
      | cons l ls =>
        simpa [splitBuffer, hc, hp] using ih

theorem splitBuffer_of_no_newline (r : Str) (h : newlineChar ∉ r) :
    splitBuffer r = ([], r) := by
  induction r with
  | nil => rfl
  | cons c cs ih =>
    have hc : ¬ c = newlineChar := fun hh => h (by simp [hh])
    have hcs : newlineChar ∉ cs := fun hh => h (List.mem_cons_of_mem c hh)
    simp [splitBuffer, hc, ih hcs]

theorem glueSplit_decompose (p q : List Str × Str) :
    glueSplit p q = (p.1 ++ (glueSplit ([], p.2) q).1, (glueSplit ([], p.2) q).2) := by
  rcases q with ⟨ql, qr⟩
  cases ql <;> simp [glueSplit]

theorem procChunk_append (f : Str → Option Str) (st : ProcState) (a b : Str) :
    procChunk f (procChunk f st a) b = procChunk f st (a ++ b) := by
  simp only [procChunk]
  have hres : splitBuffer ((splitBuffer (st.buffer ++ a)).2 ++ b) =
      glueSplit ([], (splitBuffer (st.buffer ++ a)).2) (splitBuffer b) := by
    rw [splitBuffer_append,
      splitBuffer_of_no_newline _ (newline_not_mem_residual (st.buffer ++ a))]
  have hfull : splitBuffer (st.buffer ++ (a ++ b)) =
      glueSplit (splitBuffer (st.buffer ++ a)) (splitBuffer b) := by
    rw [← List.append_assoc, splitBuffer_append]
  rw [hres, hfull, glueSplit_decompose (splitBuffer (st.buffer ++ a)) (splitBuffer b)]
  simp [List.filterMap_append, List.append_assoc]

theorem foldl_procChunk (f : Str → Option Str) (cs : List Str) :
    ∀ (st : ProcState) (a : Str),
      List.foldl (procChunk f) (procChunk f st a) cs = procChunk f st (a ++ cs.flatten) := by
  induction cs with
  | nil => intro st a; simp
  | cons c t ih =>
    intro st a
    rw [List.foldl_cons, procChunk_append, ih, List.flatten_cons]
    simp [List.append_assoc]

theorem procChunks_eq_join (f : Str → Option Str) (chunks : List Str) :
    procChunks f chunks = procChunk f ⟨[], []⟩ chunks.flatten := by
  cases chunks with
  | nil => rfl
  | cons c t =>
    unfold procChunks
    rw [List.foldl_cons, foldl_procChunk, List.flatten_cons]

/- ## C4 -/

/-- C4: the proxy stream translator is chunking-invariant and emits exactly
the per-line frames of the complete newline-terminated lines of the whole
upstream byte sequence, in order, buffering the trailing partial line.
However the upstream sequence is split into transport chunks (including in
the middle of one JSON payload), the run equals the single-pass
decomposition of the concatenation; proxyLineFrame skips non-data lines, the
[DONE] sentinel, unparseable payloads and empty deltas (returning none
instead of raising), and frames each remaining delta as a
data: JSON-text SSE frame. -/
theorem streamProcessor_chunk_invariant (parse : Str → Option Str)
    (chunks : List Str) :
    streamProcessorRun parse chunks =
      ⟨(splitBuffer chunks.flatten).2,
       (splitBuffer chunks.flatten).1.filterMap (proxyLineFrame parse)⟩ := by
  unfold streamProcessorRun
  rw [procChunks_eq_join]
  simp [procChunk]

/- ## Orchestrator helper lemmas -/

theorem performSend_trace_head (mode : ChatMode) (prompt : Str) (img : Option Str)
    (conv : List ChatMessage) (rc : Nat) (outcomes : List AttemptOutcome)
    (s : OrchState) :
    ((performSend mode prompt img conv rc outcomes s).2).head? =
      some (OrchEvent.armTimeout (timeoutDuration mode)) := by
  by_cases h1 : mode = ChatMode.vision ∧ truthyStr img = false
  · cases outcomes with
    | nil => simp [performSend, h1]
    | cons o rest => cases o <;> simp [performSend, h1]
  · by_cases h2 : mode = ChatMode.todo
    · cases outcomes with
      | nil => simp [performSend, h1, h2]
      | cons o rest => cases o <;> simp [performSend, h1, h2]
    · cases outcomes with
      | nil => simp [performSend, h1, h2]
      | cons o rest =>
        cases o with
        | success r => simp [performSend, observedOutcome, h1, h2]
        | failure name msg =>
          by_cases h3 : containsSub msg loadingMarker = true ∧ rc < MAX_RETRIES
          · simp [performSend, observedOutcome, h1, h2, h3]
          · simp [performSend, observedOutcome, h1, h2, h3]
        | aborted streamed =>
          by_cases ht : mode = ChatMode.general ∨ mode = ChatMode.coding
          · simp [performSend, observedOutcome, h1, h2, ht]
          · have hcs : ¬(containsSub abortErrorText loadingMarker = true ∧
                rc < MAX_RETRIES) := by
              rintro ⟨ha, _⟩
              exact absurd ha (by decide)
            simp [performSend, observedOutcome, h1, h2, ht, hcs]

theorem predictTerminal_total (mode : ChatMode) (prompt : Str) :
    ∀ (outcomes : List AttemptOutcome) (rc : Nat),
      MAX_RETRIES - rc < outcomes.length →
      ∃ m, predictTerminal mode prompt rc outcomes = some m := by
  intro outcomes
  induction outcomes with
  | nil => intro rc h; simp at h
  | cons o rest ih =>
    intro rc h
    cases o with
    | success r =>
      exact ⟨successMessageFor mode prompt r, by simp [predictTerminal, observedOutcome]⟩
    | failure name msg =>
      by_cases hr : containsSub msg loadingMarker = true ∧ rc < MAX_RETRIES
      · have hlen : MAX_RETRIES - (rc + 1) < rest.length := by
          simp only [List.length_cons] at h
          omega
        obtain ⟨m, hm⟩ := ih (rc + 1) hlen
        exact ⟨m, by simp [predictTerminal, observedOutcome, hr, hm]⟩
      · exact ⟨{ role := Role.model, content := terminalErrorContent name msg },
          by simp [predictTerminal, observedOutcome, hr]⟩
    | aborted streamed =>
      by_cases ht : mode = ChatMode.general ∨ mode = ChatMode.coding
      · exact ⟨successMessageFor mode prompt streamed,
          by simp [predictTerminal, observedOutcome, ht]⟩
      · have hcs : ¬(containsSub abortErrorText loadingMarker = true ∧
            rc < MAX_RETRIES) := by
          rintro ⟨ha, _⟩
          exact absurd ha (by decide)
        exact ⟨{ role := Role.model, content := terminalErrorContent abortName abortErrorText },
          by simp [predictTerminal, observedOutcome, ht, hcs]⟩

theorem predictTerminal_model (mode : ChatMode) (prompt : Str) :
    ∀ (outcomes : List AttemptOutcome) (rc : Nat) (m : ChatMessage),
      predictTerminal mode prompt rc outcomes = some m →
      m.role = Role.model ∧ m.isLoading = false := by
  intro outcomes
  induction outcomes with
  | nil => intro rc m hm; simp [predictTerminal] at hm
  | cons o rest ih =>
    intro rc m hm
    cases o with
    | success r =>
      simp only [predictTerminal, observedOutcome, Option.some.injEq] at hm
      subst hm
      unfold successMessageFor
      split <;> simp
    | failure name msg =>
      by_cases hr : containsSub msg loadingMarker = true ∧ rc < MAX_RETRIES
      · simp only [predictTerminal, observedOutcome, if_pos hr] at hm
        exact ih (rc + 1) m hm
      · simp only [predictTerminal, observedOutcome, if_neg hr, Option.some.injEq] at hm
        subst hm
        simp
    | aborted streamed =>
      by_cases ht : mode = ChatMode.general ∨ mode = ChatMode.coding
      · have hobs : observedOutcome mode (AttemptOutcome.aborted streamed) =
            ResolvedOutcome.success streamed := by simp [observedOutcome, ht]
        simp only [predictTerminal, hobs, Option.some.injEq] at hm
        subst hm
        unfold successMessageFor
        split <;> simp
      · have hobs : observedOutcome mode (AttemptOutcome.aborted streamed) =
            ResolvedOutcome.failure abortName abortErrorText := by
          simp [observedOutcome, ht]
        have hcs : ¬(containsSub abortErrorText loadingMarker = true ∧
            rc < MAX_RETRIES) := by
          rintro ⟨ha, _⟩
          exact absurd ha (by decide)
        simp only [predictTerminal, hobs, if_neg hcs, Option.some.injEq] at hm
        subst hm
        simp

theorem performSend_final_of_predict (mode : ChatMode) (prompt : Str) (img : Option Str)
    (conv : List ChatMessage) (hTodo : mode ≠ ChatMode.todo)
    (hVis : mode = ChatMode.vision → truthyStr img = true) :
    ∀ (outcomes : List AttemptOutcome) (rc : Nat) (s : OrchState) (m : ChatMessage),
      predictTerminal mode prompt rc outcomes = some m →
      (performSend mode prompt img conv rc outcomes s).1.history = conv ++ [m] := by
  have hv : ¬(mode = ChatMode.vision ∧ truthyStr img = false) := by
    rintro ⟨h1, h2⟩
    rw [hVis h1] at h2
    simp at h2
  intro outcomes
  induction outcomes with
  | nil => intro rc s m hm; simp [predictTerminal] at hm
  | cons o rest ih =>
    intro rc s m hm
    cases o with
    | success r =>
      simp only [predictTerminal, observedOutcome, Option.some.injEq] at hm
      subst hm
      simp [performSend, observedOutcome, hv, hTodo]
    | failure name msg =>
      by_cases hr : containsSub msg loadingMarker = true ∧ rc < MAX_RETRIES
      · simp only [predictTerminal, observedOutcome, if_pos hr] at hm
        simp only [performSend, observedOutcome, if_neg hv, if_neg hTodo]
        simp only [if_pos hr]
        exact ih (rc + 1) _ m hm
      · simp only [predictTerminal, observedOutcome, if_neg hr, Option.some.injEq] at hm
        subst hm
        simp [performSend, observedOutcome, hv, hTodo, hr]
    | aborted streamed =>
      by_cases ht : mode = ChatMode.general ∨ mode = ChatMode.coding
      · have hobs : observedOutcome mode (AttemptOutcome.aborted streamed) =
            ResolvedOutcome.success streamed := by simp [observedOutcome, ht]
        simp only [predictTerminal, hobs, Option.some.injEq] at hm
        subst hm
        simp [performSend, hobs, hv, hTodo]
      · have hobs : observedOutcome mode (AttemptOutcome.aborted streamed) =
            ResolvedOutcome.failure abortName abortErrorText := by
          simp [observedOutcome, ht]
        have hcs : ¬(containsSub abortErrorText loadingMarker = true ∧
            rc < MAX_RETRIES) := by
          rintro ⟨ha, _⟩
          exact absurd ha (by decide)
        simp only [predictTerminal, hobs, if_neg hcs, Option.some.injEq] at hm
        subst hm
        simp [performSend, hobs, hv, hTodo, hcs]

theorem successMessageFor_role (mode : ChatMode) (prompt r : Str) :
    (successMessageFor mode prompt r).role = Role.model := by
  unfold successMessageFor
  split <;> rfl

theorem countUser_append_model (conv : List ChatMessage) (m : ChatMessage)
    (hm : m.role = Role.model) :
    countUserMessages (conv ++ [m]) = countUserMessages conv := by
  have hfalse : isUserMessage m = false := by
    unfold isUserMessage
    rw [hm]
    rfl
  simp [countUserMessages, List.countP_append, List.countP_cons, hfalse]

theorem preAttempt_commit (mode : ChatMode) (prompt : Str)
    (conv : List ChatMessage) (rc : Nat) (s : OrchState) (h : List ChatMessage)
    (hmem : OrchEvent.commit h ∈ (preAttempt mode prompt conv rc s).2) :
    h = conv ++ [mediaPlaceholderMsg prompt] := by
  unfold preAttempt at hmem
  split_ifs at hmem <;> simp at hmem
  exact hmem

theorem performSend_commit_count (mode : ChatMode) (prompt : Str) (img : Option Str)
    (conv : List ChatMessage) :
    ∀ (outcomes : List AttemptOutcome) (rc : Nat) (s : OrchState)
      (h : List ChatMessage),
      OrchEvent.commit h ∈ (performSend mode prompt img conv rc outcomes s).2 →
      countUserMessages h = countUserMessages conv := by
  intro outcomes
  induction outcomes with
  | nil =>
    intro rc s h hmem
    by_cases h1 : mode = ChatMode.vision ∧ truthyStr img = false
    · simp [performSend, h1] at hmem
      rw [hmem]
      exact countUser_append_model conv _ rfl
    · by_cases h2 : mode = ChatMode.todo
      · simp [performSend, h1, h2] at hmem
      · simp [performSend, h1, h2] at hmem
  | cons o rest ih =>
    intro rc s h hmem
    by_cases h1 : mode = ChatMode.vision ∧ truthyStr img = false
    · cases o <;> simp [performSend, h1] at hmem <;>
        (rw [hmem]; exact countUser_append_model conv _ rfl)
    · by_cases h2 : mode = ChatMode.todo
      · cases o <;> simp [performSend, h1, h2] at hmem
      · have hsucc : ∀ (r : Str),
            observedOutcome mode o = ResolvedOutcome.success r →
            OrchEvent.commit h ∈
              (performSend mode prompt img conv rc (o :: rest) s).2 →
            countUserMessages h = countUserMessages conv := by
          intro r hobs hmem
          simp only [performSend, if_neg h1, if_neg h2, hobs] at hmem
          simp [or_assoc] at hmem
          rcases hmem with hpre | hfin
          · rw [preAttempt_commit mode prompt conv rc _ h hpre]
            exact countUser_append_model conv _ rfl
          · rw [hfin]
            exact countUser_append_model conv _ (successMessageFor_role mode prompt r)
        have hfail : ∀ (name msg : Str),
            observedOutcome mode o = ResolvedOutcome.failure name msg →
            OrchEvent.commit h ∈
              (performSend mode prompt img conv rc (o :: rest) s).2 →
            countUserMessages h = countUserMessages conv := by
          intro name msg hobs hmem
          by_cases h3 : containsSub msg loadingMarker = true ∧ rc < MAX_RETRIES
          · simp only [performSend, if_neg h1, if_neg h2, hobs, if_pos h3] at hmem
            simp [or_assoc] at hmem
            rcases hmem with hpre | hretry | hconv | hnext
            · rw [preAttempt_commit mode prompt conv rc _ h hpre]
              exact countUser_append_model conv _ rfl
            · rw [hretry]
              exact countUser_append_model conv _ rfl
            · rw [hconv]
            · exact ih (rc + 1) _ h hnext
          · simp only [performSend, if_neg h1, if_neg h2, hobs, if_neg h3] at hmem
            simp [or_assoc] at hmem
            rcases hmem with hpre | hfin
            · rw [preAttempt_commit mode prompt conv rc _ h hpre]
              exact countUser_append_model conv _ rfl
            · rw [hfin]
              exact countUser_append_model conv _ rfl
        cases hof : observedOutcome mode o with
        | success r => exact hsucc r hof hmem
        | failure name msg => exact hfail name msg hof hmem

theorem sendMessage_final (mode : ChatMode) (input : Str) (img : Option Str)
    (outcomes : List AttemptOutcome) (s : OrchState) (m : ChatMessage)
    (hIdle : s.isLoading = false)
    (hTodo : mode ≠ ChatMode.todo)
    (hVis : mode = ChatMode.vision → truthyStr img = true)
    (hTrim : mode ≠ ChatMode.vision → trimStr input ≠ [])
    (hm : predictTerminal mode (promptOf mode input) 0 outcomes = some m) :
    (sendMessage mode input img outcomes s).1.history =
        s.history ++ [mkUserMessage mode input img, m] ∧
    (sendMessage mode input img outcomes s).1.isLoading = false ∧
    (sendMessage mode input img outcomes s).1.streaming = none ∧
    (sendMessage mode input img outcomes s).1.intervalLive = false ∧
    (sendMessage mode input img outcomes s).1.intervalRef = false ∧
    (sendMessage mode input img outcomes s).1.timeoutLive = false ∧
    (sendMessage mode input img outcomes s).1.timeoutRef = false := by
  have hg1 : ¬ s.isLoading = true := by simp [hIdle]
  have hg2 : ¬(mode = ChatMode.vision ∧ truthyStr img = false) := by
    rintro ⟨ha, hb⟩
    rw [hVis ha] at hb
    simp at hb
  have hg3 : ¬(mode ≠ ChatMode.vision ∧ trimStr input = []) := by
    rintro ⟨ha, hb⟩
    exact hTrim ha hb
  have hhist := performSend_final_of_predict mode (promptOf mode input) img
    (s.history ++ [mkUserMessage mode input img]) hTodo hVis outcomes 0
    { { s with isLoading := true } with
        history := s.history ++ [mkUserMessage mode input img] } m hm
  simp only [sendMessage, if_neg hg1, if_neg hg2, if_neg hg3]
  refine ⟨?_, rfl, rfl, rfl, rfl, rfl, rfl⟩
  simp only [cleanupAfterRequest]
  rw [hhist]
  simp

/- ## C7 -/

set_option maxRecDepth 40000 in
/-- C7 counterexample: in General mode the deadline abort is swallowed
inside generateTextStream (whose catch ignores AbortError) and the attempt
resolves, so the run commits the partial streamed content as an ordinary
model message, not the user-facing apology. -/
theorem timeout_in_text_mode_commits_stream :
    (performSend ChatMode.general (("halo").toList) none [] 0
        [AttemptOutcome.aborted (("Hal").toList)] initOrchState).1.history =
      [{ role := Role.model, content := ("Hal").toList }] ∧
    ("Hal").toList ≠ timeoutApology := by
  constructor
  · decide
  · decide

/-- C7 (amended): every attempt arms a per-mode deadline timer whose
duration is strictly longer for the artifact modes (media, vision: 180000
ms) than for the text modes (120000 ms); when the deadline fires it aborts
the attempt and the timed-out attempt is never retried (the result ignores
all further outcomes), but the committed outcome depends on the mode: in
media and vision the AbortError reaches the catch and the user-facing
apology is committed, while in general and coding the abort is swallowed
inside generateTextStream and the partial streamed content is committed as
an ordinary model message. -/
theorem deadline_per_mode_behavior :
    (timeoutDuration ChatMode.media = 180000 ∧ timeoutDuration ChatMode.vision = 180000 ∧
     timeoutDuration ChatMode.general = 120000 ∧ timeoutDuration ChatMode.coding = 120000 ∧
     (120000 : Nat) < 180000) ∧
    (∀ (mode : ChatMode) (prompt : Str) (img : Option Str) (conv : List ChatMessage)
        (rc : Nat) (outcomes : List AttemptOutcome) (s : OrchState),
        ((performSend mode prompt img conv rc outcomes s).2).head? =
          some (OrchEvent.armTimeout (timeoutDuration mode))) ∧
    (∀ (mode : ChatMode) (prompt : Str) (img : Option Str) (conv : List ChatMessage)
        (rc : Nat) (streamed : Str) (rest : List AttemptOutcome) (s : OrchState),
        (mode = ChatMode.media ∨ mode = ChatMode.vision) →
        (mode = ChatMode.vision → truthyStr img = true) →
        performSend mode prompt img conv rc
            (AttemptOutcome.aborted streamed :: rest) s =
          performSend mode prompt img conv rc [AttemptOutcome.aborted streamed] s ∧
        (performSend mode prompt img conv rc
            (AttemptOutcome.aborted streamed :: rest) s).1.history =
          conv ++ [{ role := Role.model, content := timeoutApology }]) ∧
    (∀ (mode : ChatMode) (prompt : Str) (img : Option Str) (conv : List ChatMessage)
        (rc : Nat) (streamed : Str) (rest : List AttemptOutcome) (s : OrchState),
        (mode = ChatMode.general ∨ mode = ChatMode.coding) →
        performSend mode prompt img conv rc
            (AttemptOutcome.aborted streamed :: rest) s =
          performSend mode prompt img conv rc [AttemptOutcome.aborted streamed] s ∧
        (performSend mode prompt img conv rc
            (AttemptOutcome.aborted streamed :: rest) s).1.history =
          conv ++ [{ role := Role.model, content := streamed }]) := by
  refine ⟨by decide, ?_, ?_, ?_⟩
  · intro mode prompt img conv rc outcomes s
    exact performSend_trace_head mode prompt img conv rc outcomes s
  · intro mode prompt img conv rc streamed rest s hArt hVis
    have hTodo : ¬ mode = ChatMode.todo := by
      rcases hArt with h | h <;> simp [h]
    have hv : ¬(mode = ChatMode.vision ∧ truthyStr img = false) := by
      rintro ⟨ha, hb⟩
      rw [hVis ha] at hb
      simp at hb
    have ht : ¬(mode = ChatMode.general ∨ mode = ChatMode.coding) := by
      rintro (h | h) <;> rcases hArt with ha | ha <;> rw [ha] at h <;>
        exact absurd h (by decide)
    have hobs : observedOutcome mode (AttemptOutcome.aborted streamed) =
        ResolvedOutcome.failure abortName abortErrorText := by
      simp [observedOutcome, ht]
    have hcs : ¬(containsSub abortErrorText loadingMarker = true ∧
        rc < MAX_RETRIES) := by
      rintro ⟨ha, _⟩
      exact absurd ha (by decide)
    constructor
    · simp [performSend, hv, hTodo, hobs, hcs]
    · simp [performSend, hv, hTodo, hobs, hcs, terminalErrorContent]
  · intro mode prompt img conv rc streamed rest s hText
    have hTodo : ¬ mode = ChatMode.todo := by
      rcases hText with h | h <;> simp [h]
    have hv : ¬(mode = ChatMode.vision ∧ truthyStr img = false) := by
      rintro ⟨ha, _⟩
      rcases hText with h | h <;> rw [h] at ha <;> exact absurd ha (by decide)
    have hobs : observedOutcome mode (AttemptOutcome.aborted streamed) =
        ResolvedOutcome.success streamed := by
      simp [observedOutcome, hText]
    have hsm : successMessageFor mode prompt streamed =
        { role := Role.model, content := streamed } := by
      unfold successMessageFor
      rcases hText with h | h <;> simp [h]
    constructor
    · simp [performSend, hv, hTodo, hobs]
    · simp [performSend, hv, hTodo, hobs, hsm]

/-- Witness for C7: a media timeout commits the apology and a coding timeout
commits the partial stream; both ignore the remaining outcomes. -/
theorem deadline_per_mode_behavior_witness :
    (performSend ChatMode.media (("a cat").toList) none [] 0
        (AttemptOutcome.aborted ([]) :: [AttemptOutcome.success (("u").toList)])
        initOrchState =
      performSend ChatMode.media (("a cat").toList) none [] 0
        [AttemptOutcome.aborted ([])] initOrchState ∧
     (performSend ChatMode.media (("a cat").toList) none [] 0
        (AttemptOutcome.aborted ([]) :: [AttemptOutcome.success (("u").toList)])
        initOrchState).1.history =
      [] ++ [{ role := Role.model, content := timeoutApology }]) ∧
    (performSend ChatMode.coding (("kode").toList) none [] 0
        (AttemptOutcome.aborted (("Hal").toList) ::
          [AttemptOutcome.success (("x").toList)]) initOrchState =
      performSend ChatMode.coding (("kode").toList) none [] 0
        [AttemptOutcome.aborted (("Hal").toList)] initOrchState ∧
     (performSend ChatMode.coding (("kode").toList) none [] 0
        (AttemptOutcome.aborted (("Hal").toList) ::
          [AttemptOutcome.success (("x").toList)]) initOrchState).1.history =
      [] ++ [{ role := Role.model, content := ("Hal").toList }]) :=
  ⟨deadline_per_mode_behavior.2.2.1 ChatMode.media (("a cat").toList) none [] 0 ([])
      [AttemptOutcome.success (("u").toList)] initOrchState (Or.inl rfl) (by decide),
   deadline_per_mode_behavior.2.2.2 ChatMode.coding (("kode").toList) none [] 0
      (("Hal").toList) [AttemptOutcome.success (("x").toList)] initOrchState
      (Or.inr rfl)⟩

/- ## C5 -/

/-- C5: after any completed submission (one with a terminal outcome), the
rotation interval and the deadline timer are cleared, their refs are nulled,
and a rotation tick scheduled against the final history mutates nothing: the
trailing message of the committed history is never a loading placeholder at
exit. -/
theorem rotation_never_outlives_session (mode : ChatMode) (input : Str)
    (img : Option Str) (outcomes : List AttemptOutcome) (s : OrchState)
    (m : ChatMessage)
    (hIdle : s.isLoading = false) (hTodo : mode ≠ ChatMode.todo)
    (hVis : mode = ChatMode.vision → truthyStr img = true)
    (hTrim : mode ≠ ChatMode.vision → trimStr input ≠ [])
    (hm : predictTerminal mode (promptOf mode input) 0 outcomes = some m) :
    (sendMessage mode input img outcomes s).1.intervalLive = false ∧
    (sendMessage mode input img outcomes s).1.intervalRef = false ∧
    (sendMessage mode input img outcomes s).1.timeoutLive = false ∧
    (sendMessage mode input img outcomes s).1.timeoutRef = false ∧
    ∀ idx, rotationTick idx (sendMessage mode input img outcomes s).1.history =
      (sendMessage mode input img outcomes s).1.history := by
  obtain ⟨hh, _, _, hil, hir, htl, htr⟩ :=
    sendMessage_final mode input img outcomes s m hIdle hTodo hVis hTrim hm
  refine ⟨hil, hir, htl, htr, ?_⟩
  intro idx
  rw [hh]
  have hlast : (s.history ++ [mkUserMessage mode input img, m]).getLast? = some m := by
    rw [show s.history ++ [mkUserMessage mode input img, m] =
        (s.history ++ [mkUserMessage mode input img]) ++ [m] by simp]
    exact List.getLast?_concat _
  obtain ⟨hrole, hload⟩ := predictTerminal_model mode (promptOf mode input) outcomes 0 m hm
  unfold rotationTick
  rw [hlast]
  simp [hload]

/-- Witness for C5 on a completed media submission. -/
theorem rotation_never_outlives_session_witness :
    (sendMessage ChatMode.media (("a cat").toList) none
        [AttemptOutcome.success (("u").toList)] initOrchState).1.intervalLive = false ∧
    (sendMessage ChatMode.media (("a cat").toList) none
        [AttemptOutcome.success (("u").toList)] initOrchState).1.intervalRef = false ∧
    (sendMessage ChatMode.media (("a cat").toList) none
        [AttemptOutcome.success (("u").toList)] initOrchState).1.timeoutLive = false ∧
    (sendMessage ChatMode.media (("a cat").toList) none
        [AttemptOutcome.success (("u").toList)] initOrchState).1.timeoutRef = false ∧
    ∀ idx, rotationTick idx (sendMessage ChatMode.media (("a cat").toList) none
        [AttemptOutcome.success (("u").toList)] initOrchState).1.history =
      (sendMessage ChatMode.media (("a cat").toList) none
        [AttemptOutcome.success (("u").toList)] initOrchState).1.history :=
  rotation_never_outlives_session ChatMode.media (("a cat").toList) none
    [AttemptOutcome.success (("u").toList)] initOrchState
    (successMessageFor ChatMode.media (("a cat").toList) (("u").toList))
    (by decide) (by decide) (by decide) (by decide) (by decide)

/- ## C2 -/

set_option maxRecDepth 40000 in
/-- C2 counterexample: after MAX_RETRIES (2) consecutive loading failures
followed by a success, the committed terminal message is the success
message; no terminal error message is committed, refuting the claim that
MAX_RETRIES consecutive loading failures already yield a terminal error. -/
theorem two_loading_failures_then_success_not_error :
    (sendMessage ChatMode.general (("halo").toList) none
        [AttemptOutcome.failure (("Error").toList) cexLoadMsg,
         AttemptOutcome.failure (("Error").toList) cexLoadMsg,
         AttemptOutcome.success (("ok").toList)] initOrchState).1.history =
      [mkUserMessage ChatMode.general (("halo").toList) none,
       { role := Role.model, content := ("ok").toList }] ∧
    ("ok").toList ≠ timeoutApology ∧
    (∀ em, ("ok").toList ≠ exhaustedMsg em) ∧
    (∀ em, ("ok").toList ≠ genericErrorMsg em) := by
  refine ⟨by decide, by decide, ?_, ?_⟩
  · intro em hEq
    have hlen := congrArg List.length hEq
    have hpre : 100 < exhaustedPre.length := by decide
    simp [exhaustedMsg, List.length_append] at hlen
    omega
  · intro em hEq
    have hlen := congrArg List.length hEq
    have hpre : 10 < genericPre.length := by decide
    simp [genericErrorMsg, List.length_append] at hlen
    omega

/-- C2 (amended): a submission with a terminal outcome commits exactly one
terminal message (the history grows by the user message and that single
terminal message) and returns to Idle; any outcome sequence longer than
MAX_RETRIES has a terminal outcome (never zero outcomes); and exhaustion
requires MAX_RETRIES + 1 consecutive loading failures (the initial attempt
plus MAX_RETRIES retries), after which the single terminal message is the
retries-exhausted error built from the last failure. -/
theorem sendMessage_exactly_one_terminal (mode : ChatMode) (input : Str)
    (img : Option Str) (outcomes : List AttemptOutcome) (s : OrchState)
    (m : ChatMessage)
    (hIdle : s.isLoading = false) (hTodo : mode ≠ ChatMode.todo)
    (hVis : mode = ChatMode.vision → truthyStr img = true)
    (hTrim : mode ≠ ChatMode.vision → trimStr input ≠ [])
    (hm : predictTerminal mode (promptOf mode input) 0 outcomes = some m) :
    (sendMessage mode input img outcomes s).1.history =
        s.history ++ [mkUserMessage mode input img, m] ∧
    m.role = Role.model ∧ m.isLoading = false ∧
    (sendMessage mode input img outcomes s).1.isLoading = false ∧
    (sendMessage mode input img outcomes s).1.streaming = none ∧
    (∀ outcomes2 : List AttemptOutcome, MAX_RETRIES < outcomes2.length →
        ∃ m2, predictTerminal mode (promptOf mode input) 0 outcomes2 = some m2) ∧
    (∀ n1 m1 n2 m2 n3 m3,
        outcomes = [AttemptOutcome.failure n1 m1, AttemptOutcome.failure n2 m2,
                    AttemptOutcome.failure n3 m3] →
        containsSub m1 loadingMarker = true → containsSub m2 loadingMarker = true →
        containsSub m3 loadingMarker = true → n3 ≠ abortName →
        m = { role := Role.model, content := exhaustedMsg m3 }) := by
  obtain ⟨hh, hl, hs, _, _, _, _⟩ :=
    sendMessage_final mode input img outcomes s m hIdle hTodo hVis hTrim hm
  obtain ⟨hrole, hload⟩ := predictTerminal_model mode (promptOf mode input) outcomes 0 m hm
  refine ⟨hh, hrole, hload, hl, hs, ?_, ?_⟩
  · intro outcomes2 hlen
    exact predictTerminal_total mode (promptOf mode input) outcomes2 0 (by simpa using hlen)
  · rintro n1 m1 n2 m2 n3 m3 rfl hl1 hl2 hl3 hn3
    have hc1 : containsSub m1 loadingMarker = true ∧ 0 < MAX_RETRIES :=
      ⟨hl1, by norm_num [MAX_RETRIES]⟩
    have hc2 : containsSub m2 loadingMarker = true ∧ 1 < MAX_RETRIES :=
      ⟨hl2, by norm_num [MAX_RETRIES]⟩
    have hc3 : ¬(containsSub m3 loadingMarker = true ∧ 2 < MAX_RETRIES) := by
      rintro ⟨_, hlt⟩
      norm_num [MAX_RETRIES] at hlt
    simp only [predictTerminal, observedOutcome, if_pos hc1, if_pos hc2, if_neg hc3,
      Option.some.injEq] at hm
    rw [← hm]
    simp [terminalErrorContent, hn3, hl3]

set_option maxRecDepth 40000 in
/-- Witness for C2 on three consecutive loading failures. -/
theorem sendMessage_exactly_one_terminal_witness :
    (sendMessage ChatMode.general (("halo").toList) none
        [AttemptOutcome.failure (("Error").toList) cexLoadMsg,
         AttemptOutcome.failure (("Error").toList) cexLoadMsg,
         AttemptOutcome.failure (("Error").toList) cexLoadMsg] initOrchState).1.history =
      initOrchState.history ++
        [mkUserMessage ChatMode.general (("halo").toList) none,
         { role := Role.model, content := exhaustedMsg cexLoadMsg }] :=
  (sendMessage_exactly_one_terminal ChatMode.general (("halo").toList) none
    [AttemptOutcome.failure (("Error").toList) cexLoadMsg,
     AttemptOutcome.failure (("Error").toList) cexLoadMsg,
     AttemptOutcome.failure (("Error").toList) cexLoadMsg] initOrchState
    { role := Role.model, content := exhaustedMsg cexLoadMsg }
    (by decide) (by decide) (by decide) (by decide) (by decide)).1

/- ## C1 -/

set_option maxRecDepth 40000 in
/-- C1 counterexample: when the loading error carries an estimated wait of 5
seconds, the orchestrator sleeps 5 seconds, not max(5, 20) = 20: there is no
20-second floor on the parsed wait. -/
theorem retry_wait_not_floored :
    waitSecondsOf cexLoadMsg = 5 ∧ max (waitSecondsOf cexLoadMsg) 20 = 20 ∧
    OrchEvent.sleep 5 ∈ (performSend ChatMode.general (("halo").toList) none [] 0
        [AttemptOutcome.failure (("Error").toList) cexLoadMsg,
         AttemptOutcome.success (("ok").toList)] initOrchState).2 ∧
    OrchEvent.sleep 20 ∉ (performSend ChatMode.general (("halo").toList) none [] 0
        [AttemptOutcome.failure (("Error").toList) cexLoadMsg,
         AttemptOutcome.success (("ok").toList)] initOrchState).2 := by
  decide

/-- C1 (amended): on a loading failure with attempt counter below
MAX_RETRIES, the orchestrator emits, in order: the commit inserting the
transient informational message (stating the wait and the attempt number),
the draft reset, a sleep of the parsed estimated seconds (defaulting to 20
when no wait is parsed, with no floor applied), and the commit removing the
informational message by restoring the pre-retry snapshot; it then resubmits
with attempt + 1 against the original prompt and that same snapshot, and
every history ever committed during the run carries exactly as many user
messages as the snapshot (retries never duplicate the user message). -/
theorem retry_step_behavior (mode : ChatMode) (prompt : Str) (img : Option Str)
    (conv : List ChatMessage) (rc : Nat) (name msg : Str)
    (rest : List AttemptOutcome) (s : OrchState)
    (hTodo : mode ≠ ChatMode.todo)
    (hVis : mode = ChatMode.vision → truthyStr img = true)
    (hLoad : containsSub msg loadingMarker = true) (hRc : rc < MAX_RETRIES) :
    (∃ (preEvs : List OrchEvent) (s2 : OrchState),
      performSend mode prompt img conv rc (AttemptOutcome.failure name msg :: rest) s =
        ((performSend mode prompt img conv (rc + 1) rest s2).1,
         preEvs ++
           ([OrchEvent.commit (conv ++
               [{ role := Role.model,
                  content := retryMsgContent (waitSecondsOf msg) (rc + 1) }]),
             OrchEvent.draft none, OrchEvent.sleep (waitSecondsOf msg),
             OrchEvent.commit conv] ++
            (performSend mode prompt img conv (rc + 1) rest s2).2))) ∧
    (∀ h, OrchEvent.commit h ∈
        (performSend mode prompt img conv rc
          (AttemptOutcome.failure name msg :: rest) s).2 →
      countUserMessages h = countUserMessages conv) := by
  have hv : ¬(mode = ChatMode.vision ∧ truthyStr img = false) := by
    rintro ⟨ha, hb⟩
    rw [hVis ha] at hb
    simp at hb
  constructor
  · refine ⟨[OrchEvent.armTimeout (timeoutDuration mode)] ++
        (preAttempt mode prompt conv rc
          { s with abortRef := true, timeoutLive := true, timeoutRef := true }).2,
      { applyCatchTimers (preAttempt mode prompt conv rc
          { s with abortRef := true, timeoutLive := true, timeoutRef := true }).1 with
          history := conv
          streaming := none }, ?_⟩
    simp only [performSend, observedOutcome, if_neg hv, if_neg hTodo,
      if_pos (⟨hLoad, hRc⟩ : containsSub msg loadingMarker = true ∧ rc < MAX_RETRIES)]
    simp [List.append_assoc]
  · intro h hmem
    exact performSend_commit_count mode prompt img conv _ rc s h hmem

set_option maxRecDepth 40000 in
/-- Witness for C1 at a concrete loading failure with a 5 second wait. -/
theorem retry_step_behavior_witness :
    (∃ (preEvs : List OrchEvent) (s2 : OrchState),
      performSend ChatMode.general (("halo").toList) none [] 0
          (AttemptOutcome.failure (("Error").toList) cexLoadMsg ::
            [AttemptOutcome.success (("ok").toList)]) initOrchState =
        ((performSend ChatMode.general (("halo").toList) none [] 1
            [AttemptOutcome.success (("ok").toList)] s2).1,
         preEvs ++
           ([OrchEvent.commit ([] ++
               [{ role := Role.model,
                  content := retryMsgContent (waitSecondsOf cexLoadMsg) 1 }]),
             OrchEvent.draft none, OrchEvent.sleep (waitSecondsOf cexLoadMsg),
             OrchEvent.commit []] ++
            (performSend ChatMode.general (("halo").toList) none [] 1
              [AttemptOutcome.success (("ok").toList)] s2).2))) ∧
    (∀ h, OrchEvent.commit h ∈
        (performSend ChatMode.general (("halo").toList) none [] 0
          (AttemptOutcome.failure (("Error").toList) cexLoadMsg ::
            [AttemptOutcome.success (("ok").toList)]) initOrchState).2 →
      countUserMessages h = countUserMessages []) :=
  retry_step_behavior ChatMode.general (("halo").toList) none [] 0
    (("Error").toList) cexLoadMsg [AttemptOutcome.success (("ok").toList)]
    initOrchState (by decide) (by decide) (by decide) (by decide)

/- ## C3 -/

set_option maxRecDepth 40000 in
/-- C3 counterexample: cancelling a General-mode stream leaves the partial
draft committed as an ordinary model message, so the history is the
pre-submission history plus TWO messages, not plus one; and cancelling a
Media generation commits the visible timeout-apology error message. -/
theorem cancellation_commits_two_messages :
    (sendMessage ChatMode.general (("halo").toList) none
        [AttemptOutcome.aborted (("Hal").toList)] initOrchState).1.history =
      [mkUserMessage ChatMode.general (("halo").toList) none,
       { role := Role.model, content := ("Hal").toList }] ∧
    ((sendMessage ChatMode.general (("halo").toList) none
        [AttemptOutcome.aborted (("Hal").toList)] initOrchState).1.history).length =
      initOrchState.history.length + 2 ∧
    (sendMessage ChatMode.media (("a cat").toList) none
        [AttemptOutcome.aborted ([])] initOrchState).1.history =
      [mkUserMessage ChatMode.media (("a cat").toList) none,
       { role := Role.model, content := timeoutApology }] := by
  refine ⟨by decide, by decide, by decide⟩

/-- C3 (amended): user cancellation aborts the in-flight attempt; the
streaming draft is discarded and the mode returns to Idle, but the committed
history always ends at the pre-submission length plus 2: in the text modes
generateTextStream swallows the AbortError and resolves, so the partial
streamed content is committed as an ordinary model message (no visible
error message), while in the artifact modes the AbortError reaches the
catch and the visible timeout-apology error message is committed. -/
theorem cancellation_by_mode_behavior (mode : ChatMode) (input : Str)
    (img : Option Str) (s : OrchState) (streamed : Str)
    (hIdle : s.isLoading = false) (hTodo : mode ≠ ChatMode.todo)
    (hVis : mode = ChatMode.vision → truthyStr img = true)
    (hTrim : mode ≠ ChatMode.vision → trimStr input ≠ []) :
    ((mode = ChatMode.general ∨ mode = ChatMode.coding) →
      (sendMessage mode input img
          [AttemptOutcome.aborted streamed] s).1.history =
        s.history ++ [mkUserMessage mode input img,
          { role := Role.model, content := streamed }]) ∧
    ((mode = ChatMode.media ∨ mode = ChatMode.vision) →
      (sendMessage mode input img
          [AttemptOutcome.aborted streamed] s).1.history =
        s.history ++ [mkUserMessage mode input img,
          { role := Role.model, content := timeoutApology }]) ∧
    (sendMessage mode input img
        [AttemptOutcome.aborted streamed] s).1.streaming = none ∧
    (sendMessage mode input img
        [AttemptOutcome.aborted streamed] s).1.isLoading = false ∧
    ((sendMessage mode input img
        [AttemptOutcome.aborted streamed] s).1.history).length =
      s.history.length + 2 := by
  have hcs : ¬(containsSub abortErrorText loadingMarker = true ∧
      0 < MAX_RETRIES) := by
    rintro ⟨ha, _⟩
    exact absurd ha (by decide)
  obtain ⟨m, hm, hmt, hma⟩ :
      ∃ m, predictTerminal mode (promptOf mode input) 0
          [AttemptOutcome.aborted streamed] = some m ∧
        ((mode = ChatMode.general ∨ mode = ChatMode.coding) →
          m = { role := Role.model, content := streamed }) ∧
        ((mode = ChatMode.media ∨ mode = ChatMode.vision) →
          m = { role := Role.model, content := timeoutApology }) := by
    cases mode with
    | todo => exact absurd rfl hTodo
    | general =>
      refine ⟨{ role := Role.model, content := streamed }, ?_, fun _ => rfl,
        fun hf => absurd hf (by decide)⟩
      simp [predictTerminal, observedOutcome, successMessageFor]
    | coding =>
      refine ⟨{ role := Role.model, content := streamed }, ?_, fun _ => rfl,
        fun hf => absurd hf (by decide)⟩
      simp [predictTerminal, observedOutcome, successMessageFor]
    | media =>
      refine ⟨{ role := Role.model, content := timeoutApology }, ?_,
        fun hf => absurd hf (by decide), fun _ => rfl⟩
      simp [predictTerminal, observedOutcome, hcs, terminalErrorContent]
    | vision =>
      refine ⟨{ role := Role.model, content := timeoutApology }, ?_,
        fun hf => absurd hf (by decide), fun _ => rfl⟩
      simp [predictTerminal, observedOutcome, hcs, terminalErrorContent]
  obtain ⟨hh, hl, hs, _, _, _, _⟩ :=
    sendMessage_final mode input img [AttemptOutcome.aborted streamed] s m
      hIdle hTodo hVis hTrim hm
  refine ⟨fun hf => by rw [hh, hmt hf], fun hf => by rw [hh, hma hf], hs, hl, ?_⟩
  rw [hh]
  simp

/-- Witness for C3: a cancelled coding-mode stream commits its partial
content. -/
theorem cancellation_by_mode_behavior_witness :
    (sendMessage ChatMode.coding (("tulis kode").toList) none
        [AttemptOutcome.aborted (("Hal").toList)] initOrchState).1.history =
      initOrchState.history ++
        [mkUserMessage ChatMode.coding (("tulis kode").toList) none,
         { role := Role.model, content := ("Hal").toList }] :=
  (cancellation_by_mode_behavior ChatMode.coding (("tulis kode").toList) none
    initOrchState (("Hal").toList) (by decide) (by decide) (by decide)
    (by decide)).1 (Or.inr rfl)
